import Mathlib

/-!
Shallow embedding of `src/usb_writer.py` (RasyidGZ/USB-Writer).

The script is a sequential orchestrator: it optionally lists disks, checks
for elevated privileges, asks the operator for confirmation, optionally
creates a partition table, optionally creates and formats a partition, and
optionally raw-writes an ISO image with `dd`.  All external effects are
subprocess invocations; we embed a run as the ordered list of argv vectors
the script would hand to `subprocess`, together with the process outcome
(normal return vs. `SystemExit`/`sys.exit`).  Environment facts the script
reads (platform, euid, which tools are installed, the operator's typed
response, file existence, and whether each delegate call succeeds) are
fields of an `Env` record; `callOk` is the oracle saying whether a given
`subprocess.check_call`/`check_output` succeeds (a `False` means the call
raised, which the script catches where the source wraps it in
`try/except`).
-/

/-- An argv vector passed to `subprocess`. -/
abbrev Cmd := List String

/-- Command-line arguments, mirroring the `argparse` setup in `main`
(usb_writer.py lines 191-197).  `parttable` is restricted by argparse to
`"gpt"` or `"mbr"`; we carry it as a plain string like the source does. -/
structure Args where
  list : Bool
  target : Option String
  iso : Option String
  parttable : Option String
  format : Option String
  yes : Bool

/-- The environment the script observes: platform name
(`platform.system()`), effective uid (`os.geteuid()`), the Windows
admin-check result (`none` models the `ctypes` call raising, which the
source swallows with `except Exception: pass`), tool availability
(`shutil.which`), the operator's `input()` response, file existence and
size (`Path(...).exists()` / file size), and the success oracle for each
subprocess invocation. -/
structure Env where
  system : String
  euid : Nat
  winAdmin : Option Bool
  hasSgdisk : Bool
  hasParted : Bool
  confirmInput : String
  isoExists : String → Bool
  isoSize : String → Nat
  callOk : Cmd → Bool

/-- How the Python process ends: `listed`/`finished` are normal returns
from `main` (exit status 0; `finished` means line 242 printed the final
"Done. Remember to safely eject the device." message), `usageError` is
`parser.error` (exit status 2), `aborted` is the `sys.exit(1)` in
`confirm`, and `exited msg` is `SystemExit(msg)` (exit status 1 with the
message printed). -/
inductive Outcome where
  | listed : Outcome
  | finished : Outcome
  | usageError : Outcome
  | aborted : Outcome
  | exited : String → Outcome
deriving DecidableEq, Repr

/-- Exit status of the process for each outcome: Python exits 0 on a
normal return from `main`, 2 on an argparse usage error, and 1 both for
`sys.exit(1)` and for `SystemExit` carrying a message. -/
def Outcome.exitCode : Outcome → Nat
  | .listed => 0
  | .finished => 0
  | .usageError => 2
  | .aborted => 1
  | .exited _ => 1

/-- Result of one run of the script: the subprocess argv vectors issued in
order, the process outcome, and the diskpart script text written to a file
on the Windows path (lines 225-229), if any. -/
structure RunResult where
  cmds : List Cmd
  outcome : Outcome
  diskpartScript : Option String
deriving DecidableEq, Repr

/-- `check_root` (lines 35-46).  Returns `some msg` when the script calls
`sys.exit(msg)`.  On Linux/macOS a non-zero euid exits; on Windows the
admin check exits only when `IsUserAnAdmin` runs and returns false — if
the check itself raises (`winAdmin = none`) the exception is swallowed and
the run proceeds.  Other platforms are not checked at all. -/
def check_root (env : Env) : Option String :=
  if env.system = "Linux" ∨ env.system = "Darwin" then
    if env.euid ≠ 0 then some "This script must be run as root (sudo). Exiting." else none
  else if env.system = "Windows" then
    match env.winAdmin with
    | some true => none
    | some false => some "Please run this script from an elevated Administrator PowerShell. Exiting."
    | none => none
  else none

/-- The `lsblk` invocation of `list_disks_unix` (line 53). -/
def lsblkCmd : Cmd := ["lsblk", "-o", "NAME,SIZE,TYPE,MOUNTPOINT,MODEL,TRAN"]

/-- `list_disks` (lines 50-94): the subprocess calls issued by the listing
helpers.  On Linux the `/proc/partitions` fallback runs only when `lsblk`
fails; every failure is caught and printed, never raised. -/
def list_disks (env : Env) : List Cmd :=
  if env.system = "Linux" then
    if env.callOk lsblkCmd then [lsblkCmd]
    else [lsblkCmd, ["cat", "/proc/partitions"]]
  else if env.system = "Darwin" then
    [["diskutil", "list"]]
  else if env.system = "Windows" then
    [["powershell", "-Command", "Get-Disk | Format-Table -AutoSize"]]
  else []

/-- `confirm` (lines 178-186), with the `input()` response made explicit.
Returns `true` when the run proceeds; `false` models the
`sys.exit(1)` after "Confirmation failed. Aborting.". -/
def confirm (target ans : String) : Bool :=
  ¬ (ans ≠ target ∧ ans ≠ "YES")

/-- `create_partition_table_unix` (lines 98-117).  When `sgdisk` is
present, a `gpt` request zaps the table while any other table value (only
`"mbr"` can reach here) issues `sgdisk --mbrtogpt=1`, an MBR→GPT
conversion, with no error; `check_call` failures are caught and printed.
When only `parted` is present it runs `mklabel`.  With neither tool the
function raises `SystemExit` (the `some msg` component). -/
def create_partition_table_unix (device table : String) (env : Env) :
    List Cmd × Option String :=
  if env.hasSgdisk then
    if table = "gpt" then ([["sgdisk", "--zap-all", device]], none)
    else ([["sgdisk", "--mbrtogpt=1", device]], none)
  else if env.hasParted then
    ([["parted", "-s", device, "mklabel", table]], none)
  else ([], some "Neither sgdisk nor parted found. Install parted (or gdisk) and retry.")

/-- The `parted mkpart` invocation of `format_partition_unix` (line 127). -/
def mkpartCmd (device fs_type : String) : Cmd :=
  ["parted", "-s", device, "mkpart", "primary", fs_type, "0%", "100%"]

/-- `format_partition_unix` (lines 120-154).  Order matters and follows the
source: the `parted mkpart` delegate runs first (its failure is caught and
the function returns early), then the partition name is derived (raising
`SystemExit` on a non-Linux/macOS platform), then `sleep 1`, and only then
is the filesystem kind dispatched — an unsupported kind raises
`SystemExit` at that point, after `mkpart` and `sleep` have already run.
The final `mkfs` failure is caught and printed. -/
def format_partition_unix (device fs_type : String) (env : Env) :
    List Cmd × Option String :=
  if ¬ env.hasParted then
    ([], some "parted not available. Install parted and retry.")
  else if ¬ env.callOk (mkpartCmd device fs_type) then
    ([mkpartCmd device fs_type], none)
  else if env.system = "Linux" ∨ env.system = "Darwin" then
    let part := if env.system = "Linux" then device ++ "1" else device ++ "s1"
    let sleeps : List Cmd := if env.system ≠ "Windows" then [["sleep", "1"]] else []
    if fs_type = "ext4" ∨ fs_type = "ext3" ∨ fs_type = "ext2" then
      (mkpartCmd device fs_type :: sleeps ++ [["mkfs." ++ fs_type, part]], none)
    else if fs_type = "vfat" ∨ fs_type = "fat32" then
      (mkpartCmd device fs_type :: sleeps ++ [["mkfs.vfat", part]], none)
    else if fs_type = "ntfs" then
      (mkpartCmd device fs_type :: sleeps ++ [["mkfs.ntfs", part]], none)
    else
      (mkpartCmd device fs_type :: sleeps, some ("Unsupported filesystem: " ++ fs_type))
  else
    ([mkpartCmd device fs_type], some "Unsupported OS for formatting partitions via this script")

/-- The `dd` invocation of `write_iso_unix` (lines 161-163): note the
source passes `"status=progress conv=fsync"` as a single argv element. -/
def ddCmd (device iso_path : String) : Cmd :=
  ["dd", "if=" ++ iso_path, "of=" ++ device, "bs=4M", "status=progress conv=fsync"]

/-- `write_iso_unix` (lines 157-168).  If the ISO is missing it raises
`SystemExit` before any command runs; otherwise it runs `dd` (failures
caught and printed).  The Python function has no `return` statement, so
its value is `None` on every non-exit path; that returned value is the
third component, embedded as `(none : Option Nat)` so that a claimed
byte-count result can be stated against it. -/
def write_iso_unix (device iso_path : String) (env : Env) :
    List Cmd × Option String × Option Nat :=
  if ¬ env.isoExists iso_path then
    ([], some ("ISO file not found: " ++ iso_path), none)
  else ([ddCmd device iso_path], none, none)

/-- Python string interpolation of an `Option String` the way the f-string
on line 225 renders `args.format`: `None` prints as the text "None". -/
def pyStr : Option String → String
  | none => "None"
  | some s => s

/-- The diskpart script text built on the Windows path (line 225). -/
def diskpartScriptText (target : String) (parttable : String) (format : Option String) :
    String :=
  "select disk " ++ target ++ "\nclean\nconvert " ++ parttable ++
    "\ncreate partition primary\nformat fs=" ++ pyStr format ++
    " quick\nassign\nexit\n"

/-- The partition-table/format phase of `main` (lines 216-233): nothing
happens when `--parttable` is absent; on Linux/macOS it calls
`create_partition_table_unix` and then, only if `--format` was given,
`format_partition_unix`; on Windows it writes the diskpart script and runs
`diskpart /s` (failure caught).  Result: commands issued, diskpart script
written (if any), and a `SystemExit` message when raised. -/
def partPhase (args : Args) (env : Env) (target : String) :
    List Cmd × Option String × Option String :=
  match args.parttable with
  | none => ([], none, none)
  | some pt =>
    if env.system = "Linux" ∨ env.system = "Darwin" then
      match create_partition_table_unix target pt env with
      | (cs, some msg) => (cs, none, some msg)
      | (cs, none) =>
        match args.format with
        | none => (cs, none, none)
        | some fs =>
          let r := format_partition_unix target fs env
          (cs ++ r.1, none, r.2)
    else if env.system = "Windows" then
      let pfile := if env.system ≠ "Windows" then "/tmp/diskpart_script.txt"
                   else "diskpart_script.txt"
      ([["diskpart", "/s", pfile]], some (diskpartScriptText target pt args.format), none)
    else ([], none, none)

/-- The raw-write phase of `main` (lines 236-240): nothing when `--iso` is
absent; `write_iso_unix` on Linux/macOS; `write_iso_windows` (which always
raises `SystemExit`) on Windows; silently nothing on any other platform. -/
def isoPhase (args : Args) (env : Env) (target : String) :
    List Cmd × Option String :=
  match args.iso with
  | none => ([], none)
  | some p =>
    if env.system = "Linux" ∨ env.system = "Darwin" then
      let r := write_iso_unix target p env
      (r.1, r.2.1)
    else if env.system = "Windows" then
      ([], some "Windows raw write not implemented. Use Rufus or Win32 Disk Imager on Windows.")
    else ([], none)

/-- `main` (lines 190-242): list mode returns after listing; a missing
target is an argparse usage error; then `check_root`, the confirmation
gate (skipped with `--yes`), the partition/format phase, the raw-write
phase, and finally the unconditional "Done." print on line 242. -/
def runMain (args : Args) (env : Env) : RunResult :=
  if args.list then ⟨list_disks env, .listed, none⟩
  else
    match args.target with
    | none => ⟨[], .usageError, none⟩
    | some target =>
      match check_root env with
      | some msg => ⟨[], .exited msg, none⟩
      | none =>
        if ¬ args.yes ∧ ¬ confirm target env.confirmInput then
          ⟨[], .aborted, none⟩
        else
          match partPhase args env target with
          | (cs, script, some msg) => ⟨cs, .exited msg, script⟩
          | (cs, script, none) =>
            match isoPhase args env target with
            | (cs2, some msg) => ⟨cs ++ cs2, .exited msg, script⟩
            | (cs2, none) => ⟨cs ++ cs2, .finished, script⟩

/-- The filesystem kinds the format dispatch on lines 143-148 accepts. -/
def supportedFs (fs : String) : Bool :=
  fs = "ext4" ∨ fs = "ext3" ∨ fs = "ext2" ∨ fs = "vfat" ∨ fs = "fat32" ∨ fs = "ntfs"

/-- A partition-table-provisioning delegate invocation: `sgdisk`, or
`parted ... mklabel ...`. -/
def isProvisionCmd (c : Cmd) : Bool :=
  c.head? = some "sgdisk" ∨ (c.head? = some "parted" ∧ c.get? 3 = some "mklabel")

/-- A partition-creation delegate invocation: `parted ... mkpart ...`. -/
def isMkpartCmd (c : Cmd) : Bool :=
  c.head? = some "parted" ∧ c.get? 3 = some "mkpart"

/-- Whether the first list is a leading segment of the second
(structurally recursive, so the kernel can evaluate it). -/
def leadsWith : List Char → List Char → Bool
  | [], _ => true
  | _ :: _, [] => false
  | a :: as, b :: bs => a = b && leadsWith as bs

/-- Whether `sub` occurs contiguously inside `l` (structurally
recursive). -/
def containsSub (sub : List Char) : List Char → Bool
  | [] => sub.isEmpty
  | c :: tl => leadsWith sub (c :: tl) || containsSub sub tl

/-- A filesystem-format delegate invocation: any `mkfs.*` command. -/
def isMkfsCmd (c : Cmd) : Bool :=
  match c.head? with
  | some s => leadsWith "mkfs.".data s.data
  | none => false

/-- A raw-copy delegate invocation: `dd`. -/
def isDdCmd (c : Cmd) : Bool := c.head? = some "dd"

/-- A diskpart invocation (the Windows clean/convert/create/format path). -/
def isDiskpartCmd (c : Cmd) : Bool := c.head? = some "diskpart"

/-- The run invoked a filesystem-format delegate: either a `mkfs.*`
command ran, or the diskpart script it executed contains a
`format fs=` command. -/
def invokesFormatDelegate (r : RunResult) : Bool :=
  r.cmds.any (fun c => isMkfsCmd c) ||
    (match r.diskpartScript with
     | some s => containsSub "format fs=".data s.data
     | none => false)

/-- The run invoked a partition-creation delegate: either `parted mkpart`
ran, or the diskpart script it executed contains `create partition`. -/
def invokesPartitionCreate (r : RunResult) : Bool :=
  r.cmds.any (fun c => isMkpartCmd c) ||
    (match r.diskpartScript with
     | some s => containsSub "create partition".data s.data
     | none => false)

/-- Baseline environment for concrete runs: Linux, root, both partition
tools installed, every file exists, every delegate call succeeds. -/
def baseEnv : Env :=
  { system := "Linux", euid := 0, winAdmin := none, hasSgdisk := true,
    hasParted := true, confirmInput := "", isoExists := fun _ => true,
    isoSize := fun _ => 0, callOk := fun _ => true }

/-- Baseline arguments for concrete runs: target mode on `/dev/sdb` with
`--yes`, no optional steps requested. -/
def baseArgs : Args :=
  { list := false, target := some "/dev/sdb", iso := none, parttable := none,
    format := none, yes := true }

/-- Target-mode arguments requesting all three steps: gpt table, ext4
format, and an ISO write. -/
def argsFull : Args :=
  { baseArgs with parttable := some "gpt", format := some "ext4", iso := some "/x.iso" }

/-- Arguments requesting all three steps but with an unsupported
filesystem kind. -/
def argsBadFs : Args :=
  { baseArgs with parttable := some "gpt", format := some "btrfs", iso := some "/x.iso" }

/-- Arguments requesting only partition-table creation. -/
def argsPartOnly : Args := { baseArgs with parttable := some "gpt" }

/-- Environment in which the `mkfs.ext4` delegate fails and everything
else succeeds. -/
def mkfsFailEnv : Env :=
  { baseEnv with callOk := fun c => ¬ c = ["mkfs.ext4", "/dev/sdb1"] }

/-- Environment in which the `sgdisk --zap-all` delegate fails and
everything else succeeds. -/
def sgdiskFailEnv : Env :=
  { baseEnv with callOk := fun c => ¬ c = ["sgdisk", "--zap-all", "/dev/sdb"] }

/-- Environment with `sgdisk` installed but `parted` absent. -/
def sgdiskOnlyEnv : Env := { baseEnv with hasParted := false }

/-- Windows environment in which the admin check runs and reports
admin. -/
def winEnv : Env := { baseEnv with system := "Windows", winAdmin := some true }

/-- Windows environment in which the admin check itself raises (the
source swallows the exception). -/
def winNoCheckEnv : Env := { baseEnv with system := "Windows", winAdmin := none }

/-- Windows-style arguments: numeric disk target, gpt table, no format. -/
def winArgs : Args := { baseArgs with target := some "1", parttable := some "gpt" }

/-- Windows-style arguments: numeric disk target, gpt table, ntfs
format. -/
def winFmtArgs : Args :=
  { baseArgs with target := some "1", parttable := some "gpt", format := some "ntfs" }

/-- Environment in which the source image is 1024 bytes long. -/
def sizedEnv : Env := { baseEnv with isoSize := fun _ => 1024 }

/-- Environment in which no source image path exists. -/
def noIsoEnv : Env := { baseEnv with isoExists := fun _ => false }

/-- Arguments without `--yes`, so the confirmation gate runs. -/
def argsNoYes : Args := { baseArgs with yes := false }

/-- Environment in which the operator types a response matching neither
the target nor the acknowledgment token. -/
def wrongAnsEnv : Env := { baseEnv with confirmInput := "nope" }

/-- Linux environment with a non-root effective uid. -/
def nonRootEnv : Env := { baseEnv with euid := 1000 }

/-- Arguments supplying `--format` but not `--parttable`. -/
def fmtOnlyArgs : Args := { baseArgs with format := some "ext4" }

/-! ### Helper lemmas about the commands each phase can issue -/

/-- Every command issued by the listing helpers is one of the four
concrete read-only queries. -/
theorem mem_list_disks {env : Env} {c : Cmd} (h : c ∈ list_disks env) :
    c = lsblkCmd ∨ c = ["cat", "/proc/partitions"] ∨ c = ["diskutil", "list"] ∨
      c = ["powershell", "-Command", "Get-Disk | Format-Table -AutoSize"] := by
  unfold list_disks at h
  split_ifs at h <;> simp at h <;> tauto

/-- Every command issued by the partition-table creator is an `sgdisk`
zap, an `sgdisk` MBR→GPT conversion, or a `parted mklabel`. -/
theorem create_cmds_spec {t pt : String} {env : Env} {c : Cmd}
    (h : c ∈ (create_partition_table_unix t pt env).1) :
    c = ["sgdisk", "--zap-all", t] ∨ c = ["sgdisk", "--mbrtogpt=1", t] ∨
      c = ["parted", "-s", t, "mklabel", pt] := by
  unfold create_partition_table_unix at h
  split_ifs at h <;> simp at h <;> tauto

/-- Every command issued by the formatter is the `parted mkpart` call, the
`sleep 1` settling call, or one of the five concrete `mkfs` delegates. -/
theorem mkfs_head_ne_dd (fs : String) : "mkfs." ++ fs ≠ "dd" := by
  intro h
  have h2 := congrArg String.length h
  rw [String.length_append] at h2
  have h3 : "mkfs.".length = 5 := rfl
  have h4 : "dd".length = 2 := rfl
  omega

/-- No command issued by the formatter is a `dd` invocation. -/
theorem format_cmds_no_dd {t fs : String} {env : Env} {c : Cmd}
    (h : c ∈ (format_partition_unix t fs env).1) : isDdCmd c = false := by
  unfold format_partition_unix at h
  split_ifs at h <;> simp_all <;>
    rcases h with rfl | h <;>
    try rfl
  all_goals rcases h with rfl | rfl <;>
    simp [isDdCmd, mkfs_head_ne_dd]

/-- Every command issued by the raw-write phase is a `dd` invocation. -/
theorem isoPhase_cmds_spec {args : Args} {env : Env} {t : String} {c : Cmd}
    (h : c ∈ (isoPhase args env t).1) : ∃ p, c = ddCmd t p := by
  unfold isoPhase at h
  rcases hi : args.iso with _ | p <;> rw [hi] at h
  · simp at h
  · split_ifs at h <;> try simp at h
    unfold write_iso_unix at h
    split_ifs at h <;> simp at h
    all_goals exact ⟨p, h⟩

/-- Every listing command is read-only: none of the destructive-delegate
predicates match it. -/
theorem list_cmds_benign {env : Env} {c : Cmd} (h : c ∈ list_disks env) :
    isProvisionCmd c = false ∧ isMkpartCmd c = false ∧ isMkfsCmd c = false ∧
      isDiskpartCmd c = false ∧ isDdCmd c = false := by
  rcases mem_list_disks h with rfl | rfl | rfl | rfl <;> exact ⟨rfl, rfl, rfl, rfl, rfl⟩

/-- Partition-table creation commands are neither partition-creation, nor
`mkfs`, nor `diskpart`, nor `dd` invocations. -/
theorem create_cmds_benign {t pt : String} {env : Env} {c : Cmd}
    (h : c ∈ (create_partition_table_unix t pt env).1) :
    isMkpartCmd c = false ∧ isMkfsCmd c = false ∧ isDiskpartCmd c = false ∧
      isDdCmd c = false := by
  rcases create_cmds_spec h with rfl | rfl | rfl <;> exact ⟨rfl, rfl, rfl, rfl⟩

/-- A `dd` invocation matches none of the other delegate predicates. -/
theorem dd_cmd_benign (t p : String) :
    isProvisionCmd (ddCmd t p) = false ∧ isMkpartCmd (ddCmd t p) = false ∧
      isMkfsCmd (ddCmd t p) = false ∧ isDiskpartCmd (ddCmd t p) = false :=
  ⟨rfl, rfl, rfl, rfl⟩

/-- With `--parttable` absent, the partition/format phase does nothing. -/
theorem partPhase_parttable_none {args : Args} {env : Env} {t : String}
    (hpt : args.parttable = none) : partPhase args env t = ([], none, none) := by
  unfold partPhase
  rw [hpt]

/-- Provenance of the commands issued by the partition/format phase: each
comes from the table creator, the formatter (only when `--format` was
given), or is the Windows `diskpart` call; the latter two require
`--parttable` to be present. -/
theorem partPhase_cmds_spec (args : Args) (env : Env) (t : String) :
    ∀ c ∈ (partPhase args env t).1,
      (∃ pt, args.parttable = some pt ∧ c ∈ (create_partition_table_unix t pt env).1) ∨
      (args.parttable ≠ none ∧
        ∃ fs, args.format = some fs ∧ c ∈ (format_partition_unix t fs env).1) ∨
      (args.parttable ≠ none ∧ env.system = "Windows" ∧
        c = ["diskpart", "/s", "diskpart_script.txt"]) := by
  intro c hc
  unfold partPhase at hc
  split at hc
  · simp at hc
  · rename_i pt hpt
    split_ifs at hc with hsys hwin hnw
    · split at hc
      · rename_i cs msg hcr
        exact Or.inl ⟨pt, hpt, by rw [hcr]; exact hc⟩
      · rename_i cs hcr
        split at hc
        · exact Or.inl ⟨pt, hpt, by rw [hcr]; exact hc⟩
        · rename_i fs hf
          rcases List.mem_append.mp hc with h | h
          · exact Or.inl ⟨pt, hpt, by rw [hcr]; exact h⟩
          · exact Or.inr (Or.inl ⟨by simp [hpt], fs, hf, h⟩)
    · exact absurd hwin hnw
    · simp at hc
      exact Or.inr (Or.inr ⟨by simp [hpt], hwin, hc⟩)
    · simp at hc

/-- The diskpart script is written only on the Windows path with
`--parttable` present, and its text is the clean/convert/create/format
sequence rendered from the arguments. -/
theorem partPhase_script_spec (args : Args) (env : Env) (t : String) :
    (partPhase args env t).2.1 = none ∨
      (∃ pt, args.parttable = some pt ∧ env.system = "Windows" ∧
        (partPhase args env t).2.1 = some (diskpartScriptText t pt args.format)) := by
  unfold partPhase
  rcases hpt : args.parttable with _ | pt
  · simp
  · split_ifs with hsys hwin hnw
    · rcases hcr : create_partition_table_unix t pt env with ⟨cs, e⟩
      rcases e with _ | msg
      · rcases hf : args.format with _ | fs <;> simp [hcr]
      · simp [hcr]
    · exact absurd hwin hnw
    · exact Or.inr ⟨pt, rfl, hwin, by simp⟩
    · simp

/-- Provenance of every command a run issues: it comes from disk listing,
the partition-table creator, the formatter, the raw-write phase, or is the
Windows `diskpart` call; the destructive sources each require their
corresponding option to be present. -/
theorem run_cmds_spec (args : Args) (env : Env) :
    ∀ c ∈ (runMain args env).cmds,
      c ∈ list_disks env ∨
      (∃ t pt, args.target = some t ∧ args.parttable = some pt ∧
        c ∈ (create_partition_table_unix t pt env).1) ∨
      (∃ t fs, args.target = some t ∧ args.parttable ≠ none ∧ args.format = some fs ∧
        c ∈ (format_partition_unix t fs env).1) ∨
      (∃ t, args.target = some t ∧ c ∈ (isoPhase args env t).1) ∨
      (args.parttable ≠ none ∧ env.system = "Windows" ∧
        c = ["diskpart", "/s", "diskpart_script.txt"]) := by
  intro c hc
  unfold runMain at hc
  split at hc
  · exact Or.inl hc
  · split at hc
    · simp at hc
    · rename_i t ht
      split at hc
      · simp at hc
      · split at hc
        · simp at hc
        · split at hc
          · rename_i cs script msg hpp
            have h := partPhase_cmds_spec args env t c (by rw [hpp]; exact hc)
            rcases h with ⟨pt, hpt, h⟩ | ⟨hne, fs, hf, h⟩ | ⟨hne, hwin, h⟩
            · exact Or.inr (Or.inl ⟨t, pt, ht, hpt, h⟩)
            · exact Or.inr (Or.inr (Or.inl ⟨t, fs, ht, hne, hf, h⟩))
            · exact Or.inr (Or.inr (Or.inr (Or.inr ⟨hne, hwin, h⟩)))
          · rename_i cs script hpp
            split at hc <;> rename_i cs2 hip <;>
              rcases List.mem_append.mp hc with h | h
            · have h2 := partPhase_cmds_spec args env t c (by rw [hpp]; exact h)
              rcases h2 with ⟨pt, hpt, h2⟩ | ⟨hne, fs, hf, h2⟩ | ⟨hne, hwin, h2⟩
              · exact Or.inr (Or.inl ⟨t, pt, ht, hpt, h2⟩)
              · exact Or.inr (Or.inr (Or.inl ⟨t, fs, ht, hne, hf, h2⟩))
              · exact Or.inr (Or.inr (Or.inr (Or.inr ⟨hne, hwin, h2⟩)))
            · exact Or.inr (Or.inr (Or.inr (Or.inl ⟨t, ht, by rw [hip]; exact h⟩)))
            · have h2 := partPhase_cmds_spec args env t c (by rw [hpp]; exact h)
              rcases h2 with ⟨pt, hpt, h2⟩ | ⟨hne, fs, hf, h2⟩ | ⟨hne, hwin, h2⟩
              · exact Or.inr (Or.inl ⟨t, pt, ht, hpt, h2⟩)
              · exact Or.inr (Or.inr (Or.inl ⟨t, fs, ht, hne, hf, h2⟩))
              · exact Or.inr (Or.inr (Or.inr (Or.inr ⟨hne, hwin, h2⟩)))
            · exact Or.inr (Or.inr (Or.inr (Or.inl ⟨t, ht, by rw [hip]; exact h⟩)))

/-- Provenance of the diskpart script a run records: it exists only when
`--parttable` was present on the Windows path. -/
theorem run_script_spec (args : Args) (env : Env) :
    (runMain args env).diskpartScript = none ∨
      (∃ t pt, args.target = some t ∧ args.parttable = some pt ∧ env.system = "Windows" ∧
        (runMain args env).diskpartScript = some (diskpartScriptText t pt args.format)) := by
  unfold runMain
  split
  · exact Or.inl rfl
  · split
    · exact Or.inl rfl
    · rename_i t ht
      split
      · exact Or.inl rfl
      · split
        · exact Or.inl rfl
        · split
          · rename_i cs script msg hpp
            rcases partPhase_script_spec args env t with h | ⟨pt, hpt, hwin, h⟩
            · rw [hpp] at h
              exact Or.inl h
            · rw [hpp] at h
              exact Or.inr ⟨t, pt, ht, hpt, hwin, h⟩
          · rename_i cs script hpp
            split <;> rename_i cs2 hip <;>
              rcases partPhase_script_spec args env t with h | ⟨pt, hpt, hwin, h⟩ <;>
              rw [hpp] at h
            · exact Or.inl h
            · exact Or.inr ⟨t, pt, ht, hpt, hwin, h⟩
            · exact Or.inl h
            · exact Or.inr ⟨t, pt, ht, hpt, hwin, h⟩

/-- With `--parttable` absent, a run issues no partition-table, partition-
creation, `mkfs`, or `diskpart` command, and writes no diskpart script. -/
theorem parttable_none_no_delegates (args : Args) (env : Env)
    (hpt : args.parttable = none) :
    invokesPartitionCreate (runMain args env) = false ∧
      invokesFormatDelegate (runMain args env) = false ∧
      (runMain args env).cmds.all
        (fun c => !(isProvisionCmd c) && !(isDiskpartCmd c)) = true ∧
      (runMain args env).diskpartScript = none := by
  have hscript : (runMain args env).diskpartScript = none := by
    rcases run_script_spec args env with h | ⟨t, pt, _, hpt2, _, _⟩
    · exact h
    · rw [hpt] at hpt2; cases hpt2
  have hcmds : ∀ c ∈ (runMain args env).cmds,
      isMkpartCmd c = false ∧ isMkfsCmd c = false ∧
        isProvisionCmd c = false ∧ isDiskpartCmd c = false := by
    intro c hc
    rcases run_cmds_spec args env c hc with h | ⟨t, pt, _, hpt2, _⟩ |
      ⟨t, fs, _, hne, _, _⟩ | ⟨t, _, h⟩ | ⟨hne, _, _⟩
    · obtain ⟨h1, h2, h3, h4, _⟩ := list_cmds_benign h
      exact ⟨h2, h3, h1, h4⟩
    · rw [hpt] at hpt2; cases hpt2
    · exact absurd hpt hne
    · obtain ⟨p, rfl⟩ := isoPhase_cmds_spec h
      obtain ⟨h1, h2, h3, h4⟩ := dd_cmd_benign t p
      exact ⟨h2, h3, h1, h4⟩
    · exact absurd hpt hne
  refine ⟨?_, ?_, ?_, hscript⟩
  · simp [invokesPartitionCreate, hscript, List.any_eq_false]
    intro c hc
    simp [(hcmds c hc).1]
  · simp [invokesFormatDelegate, hscript, List.any_eq_false]
    intro c hc
    simp [(hcmds c hc).2.1]
  · rw [List.all_eq_true]
    intro c hc
    obtain ⟨_, _, h3, h4⟩ := hcmds c hc
    simp [h3, h4]

/-- With `--format` absent on Linux/macOS, a run never creates a partition
and never formats a filesystem. -/
theorem format_none_unix_no_delegates (args : Args) (env : Env)
    (hf : args.format = none) (hsys : env.system = "Linux" ∨ env.system = "Darwin") :
    invokesPartitionCreate (runMain args env) = false ∧
      invokesFormatDelegate (runMain args env) = false := by
  have hwin : env.system ≠ "Windows" := by
    rcases hsys with h | h <;> rw [h] <;> decide
  have hscript : (runMain args env).diskpartScript = none := by
    rcases run_script_spec args env with h | ⟨t, pt, _, _, hw, _⟩
    · exact h
    · exact absurd hw hwin
  have hcmds : ∀ c ∈ (runMain args env).cmds,
      isMkpartCmd c = false ∧ isMkfsCmd c = false := by
    intro c hc
    rcases run_cmds_spec args env c hc with h | ⟨t, pt, _, _, h⟩ |
      ⟨t, fs, _, _, hf2, _⟩ | ⟨t, _, h⟩ | ⟨_, hw, _⟩
    · obtain ⟨_, h2, h3, _, _⟩ := list_cmds_benign h
      exact ⟨h2, h3⟩
    · obtain ⟨h1, h2, _, _⟩ := create_cmds_benign h
      exact ⟨h1, h2⟩
    · rw [hf] at hf2; cases hf2
    · obtain ⟨p, rfl⟩ := isoPhase_cmds_spec h
      obtain ⟨_, h2, h3, _⟩ := dd_cmd_benign t p
      exact ⟨h2, h3⟩
    · exact absurd hw hwin
  constructor
  · simp [invokesPartitionCreate, hscript, List.any_eq_false]
    intro c hc
    simp [(hcmds c hc).1]
  · simp [invokesFormatDelegate, hscript, List.any_eq_false]
    intro c hc
    simp [(hcmds c hc).2]

/-! ### Claim theorems -/

/-- C2: for every run with auto-yes off, if the operator's typed response
is neither the exact target identifier nor the literal "YES", the run
terminates as Aborted and no delegate command of any kind is invoked. -/
theorem bad_confirmation_aborts_without_delegates (args : Args) (env : Env) (t : String)
    (hl : args.list = false) (ht : args.target = some t) (hr : check_root env = none)
    (hy : args.yes = false) (h1 : env.confirmInput ≠ t) (h2 : env.confirmInput ≠ "YES") :
    runMain args env = ⟨[], .aborted, none⟩ := by
  unfold runMain
  simp [hl, ht, hr, hy, confirm, h1, h2]

/-- Witness for C2: the baseline run without `--yes` and with the operator
typing "nope" aborts with no commands issued. -/
theorem bad_confirmation_aborts_without_delegates_witness :
    runMain argsNoYes wrongAnsEnv = ⟨[], .aborted, none⟩ :=
  bad_confirmation_aborts_without_delegates argsNoYes wrongAnsEnv "/dev/sdb" rfl rfl rfl rfl
    (by decide) (by decide)

/-- C4: with `sgdisk` present and `parted` absent, a request for an `mbr`
partition table silently runs the `sgdisk --mbrtogpt=1` MBR→GPT conversion
and reports no error, instead of failing with an unsupported-conversion
error as the specification requires. -/
theorem mbr_request_runs_gpt_conversion :
    sgdiskOnlyEnv.hasSgdisk = true ∧ sgdiskOnlyEnv.hasParted = false ∧
      create_partition_table_unix "/dev/sdb" "mbr" sgdiskOnlyEnv =
        ([["sgdisk", "--mbrtogpt=1", "/dev/sdb"]], none) :=
  ⟨rfl, rfl, rfl⟩

/-- C7: when the source image does not exist, the raw write fails with a
`SystemExit` naming the missing file before any command — in particular
`dd` — is invoked. -/
theorem missing_iso_fails_before_dd (device p : String) (env : Env)
    (h : env.isoExists p = false) :
    write_iso_unix device p env = ([], some ("ISO file not found: " ++ p), none) := by
  unfold write_iso_unix
  simp [h]

/-- Witness for C7 at a concrete missing image. -/
theorem missing_iso_fails_before_dd_witness :
    noIsoEnv.isoExists "/x.iso" = false ∧
      write_iso_unix "/dev/sdb" "/x.iso" noIsoEnv =
        ([], some "ISO file not found: /x.iso", none) :=
  ⟨rfl, missing_iso_fails_before_dd "/dev/sdb" "/x.iso" noIsoEnv rfl⟩

/-- C9 counterexample: a successful raw-write run (the image exists, the
run raises nothing) returns the Python value `None`: it does not report
any byte count, in particular not the source file's size. -/
theorem successful_write_reports_no_byte_count :
    sizedEnv.isoExists "/x.iso" = true ∧
      (write_iso_unix "/dev/sdb" "/x.iso" sizedEnv).2.1 = none ∧
      sizedEnv.isoSize "/x.iso" = 1024 ∧
      (write_iso_unix "/dev/sdb" "/x.iso" sizedEnv).2.2 = none ∧
      (write_iso_unix "/dev/sdb" "/x.iso" sizedEnv).2.2 ≠
        some (sizedEnv.isoSize "/x.iso") :=
  ⟨rfl, rfl, rfl, rfl, by decide⟩

/-- C9 amended: a successful raw write invokes `dd` exactly once with the
source, target, 4M block size and the progress/fsync operand, and returns
no value (no byte count is computed or reported by the program). -/
theorem successful_write_runs_dd_returns_none (device p : String) (env : Env)
    (h : env.isoExists p = true) :
    write_iso_unix device p env = ([ddCmd device p], none, none) := by
  unfold write_iso_unix
  simp [h]

/-- Witness for the amended C9 on the baseline environment. -/
theorem successful_write_runs_dd_returns_none_witness :
    baseEnv.isoExists "/x.iso" = true ∧
      write_iso_unix "/dev/sdb" "/x.iso" baseEnv =
        ([ddCmd "/dev/sdb" "/x.iso"], none, none) :=
  ⟨rfl, successful_write_runs_dd_returns_none "/dev/sdb" "/x.iso" baseEnv rfl⟩

/-- C5 counterexample: with an unsupported filesystem kind ("btrfs") the
formatter raises the unsupported-filesystem `SystemExit` only after the
`parted mkpart` partition-creation delegate (and the settling `sleep`)
have already been invoked — not before any delegate as claimed. -/
theorem unsupported_fs_mkpart_already_run :
    supportedFs "btrfs" = false ∧
      format_partition_unix "/dev/sdb" "btrfs" baseEnv =
        ([mkpartCmd "/dev/sdb" "btrfs", ["sleep", "1"]],
          some "Unsupported filesystem: btrfs") ∧
      isMkpartCmd (mkpartCmd "/dev/sdb" "btrfs") = true :=
  ⟨rfl, rfl, rfl⟩

/-- C5 amended: on Linux/macOS with `parted` present and a successful
`mkpart`, an unsupported filesystem kind makes the formatter exit with
"Unsupported filesystem: ..." before any `mkfs` delegate runs — but only
after the `parted mkpart` partition-creation delegate and the `sleep`
settling call have been invoked. -/
theorem unsupported_fs_exits_after_mkpart (device fs : String) (env : Env)
    (h1 : env.hasParted = true) (h2 : env.system = "Linux" ∨ env.system = "Darwin")
    (h3 : env.callOk (mkpartCmd device fs) = true) (h4 : supportedFs fs = false) :
    format_partition_unix device fs env =
      ([mkpartCmd device fs, ["sleep", "1"]],
        some ("Unsupported filesystem: " ++ fs)) := by
  have h4' : ¬fs = "ext4" ∧ ¬fs = "ext3" ∧ ¬fs = "ext2" ∧ ¬fs = "vfat" ∧
      ¬fs = "fat32" ∧ ¬fs = "ntfs" := by
    simp only [supportedFs, decide_eq_false_iff_not] at h4
    push_neg at h4
    exact h4
  obtain ⟨n1, n2, n3, n4, n5, n6⟩ := h4'
  have hlw : ("Linux" : String) ≠ "Windows" := by decide
  have hdw : ("Darwin" : String) ≠ "Windows" := by decide
  unfold format_partition_unix
  rcases h2 with h2 | h2 <;>
    simp [h1, h3, h2, hlw, hdw, n1, n2, n3, n4, n5, n6]

/-- Witness for the amended C5 at the concrete kind "xfs". -/
theorem unsupported_fs_exits_after_mkpart_witness :
    baseEnv.hasParted = true ∧ supportedFs "xfs" = false ∧
      format_partition_unix "/dev/sdc" "xfs" baseEnv =
        ([mkpartCmd "/dev/sdc" "xfs", ["sleep", "1"]],
          some "Unsupported filesystem: xfs") :=
  ⟨rfl, rfl,
    unsupported_fs_exits_after_mkpart "/dev/sdc" "xfs" baseEnv rfl (Or.inl rfl) rfl rfl⟩

/-- C8 counterexample: on Windows, when the admin check itself raises (the
source swallows the exception), the run proceeds into the destructive path
— `diskpart` is invoked and the run finishes — even though the privilege
verification did not positively succeed. -/
theorem windows_admin_check_exception_proceeds :
    winNoCheckEnv.winAdmin ≠ some true ∧ check_root winNoCheckEnv = none ∧
      (runMain winFmtArgs winNoCheckEnv).outcome = .finished ∧
      ["diskpart", "/s", "diskpart_script.txt"] ∈ (runMain winFmtArgs winNoCheckEnv).cmds :=
  ⟨by decide, rfl, rfl, by decide⟩

/-- C8 amended: the privilege check blocks the run when it actually
reaches a verdict: on Linux/macOS a non-root euid exits before any
command, and on Windows an admin check that runs and returns false exits
before any command; if the Windows check raises, the run proceeds. -/
theorem privilege_check_blocks_when_it_runs (args : Args) (env : Env) (t : String)
    (hl : args.list = false) (ht : args.target = some t) :
    ((env.system = "Linux" ∨ env.system = "Darwin") → env.euid ≠ 0 →
      runMain args env =
        ⟨[], .exited "This script must be run as root (sudo). Exiting.", none⟩) ∧
    (env.system = "Windows" → env.winAdmin = some false →
      runMain args env =
        ⟨[], .exited
          "Please run this script from an elevated Administrator PowerShell. Exiting.",
          none⟩) := by
  constructor
  · intro hsys hu
    have hcr : check_root env = some "This script must be run as root (sudo). Exiting." := by
      unfold check_root
      rcases hsys with h | h <;> simp [h, hu]
    unfold runMain
    simp [hl, ht, hcr]
  · intro hw hadmin
    have hwl : ("Windows" : String) ≠ "Linux" := by decide
    have hwd : ("Windows" : String) ≠ "Darwin" := by decide
    have hcr : check_root env =
        some "Please run this script from an elevated Administrator PowerShell. Exiting." := by
      unfold check_root
      simp [hw, hwl, hwd, hadmin]
    unfold runMain
    simp [hl, ht, hcr]

/-- Witness for the amended C8: a non-root Linux run exits with the root
message and issues no command. -/
theorem privilege_check_blocks_when_it_runs_witness :
    runMain baseArgs nonRootEnv =
      ⟨[], .exited "This script must be run as root (sudo). Exiting.", none⟩ :=
  (privilege_check_blocks_when_it_runs baseArgs nonRootEnv "/dev/sdb" rfl rfl).1
    (Or.inl rfl) (by decide)

/-- C6 counterexample: on Windows with `--parttable gpt` and no
`--format`, the single diskpart script the run executes still contains a
`create partition` command and a `format fs=None quick` command — the
skipped Formatting step's delegate is invoked after all. -/
theorem windows_skipped_format_still_in_script :
    winArgs.format = none ∧
      invokesFormatDelegate (runMain winArgs winEnv) = true ∧
      invokesPartitionCreate (runMain winArgs winEnv) = true ∧
      (runMain winArgs winEnv).diskpartScript =
        some "select disk 1\nclean\nconvert gpt\ncreate partition primary\nformat fs=None quick\nassign\nexit\n" ∧
      (runMain winArgs winEnv).outcome = .finished :=
  ⟨rfl, by decide, by decide, rfl, rfl⟩

/-- C6 amended: with `--parttable` absent no provisioning or diskpart
delegate is ever invoked and no diskpart script is written, on any
platform; with `--format` absent, on Linux/macOS no partition-creation and
no filesystem-format delegate is ever invoked (on Windows the diskpart
script still contains create/format commands when `--parttable` is
present). -/
theorem skipped_steps_invoke_no_delegates (args : Args) (env : Env) :
    (args.parttable = none →
      (runMain args env).cmds.all
          (fun c => !(isProvisionCmd c) && !(isDiskpartCmd c)) = true ∧
        (runMain args env).diskpartScript = none) ∧
    (args.format = none → (env.system = "Linux" ∨ env.system = "Darwin") →
      invokesPartitionCreate (runMain args env) = false ∧
        invokesFormatDelegate (runMain args env) = false) := by
  constructor
  · intro hpt
    obtain ⟨_, _, h3, h4⟩ := parttable_none_no_delegates args env hpt
    exact ⟨h3, h4⟩
  · intro hf hsys
    exact format_none_unix_no_delegates args env hf hsys

/-- Witness for the amended C6 on the baseline run (no optional steps). -/
theorem skipped_steps_invoke_no_delegates_witness :
    ((runMain baseArgs baseEnv).cmds.all
        (fun c => !(isProvisionCmd c) && !(isDiskpartCmd c)) = true ∧
      (runMain baseArgs baseEnv).diskpartScript = none) ∧
    (invokesPartitionCreate (runMain baseArgs baseEnv) = false ∧
      invokesFormatDelegate (runMain baseArgs baseEnv) = false) :=
  ⟨(skipped_steps_invoke_no_delegates baseArgs baseEnv).1 rfl,
   (skipped_steps_invoke_no_delegates baseArgs baseEnv).2 rfl (Or.inl rfl)⟩

/-- C10: with `--format` supplied but `--parttable` absent, no partition
is created and no filesystem is formatted anywhere in the run — the format
request is silently ignored — and (when the other steps have nothing to
do or succeed) the run still finishes, printing the final completion
message with exit status 0. -/
theorem format_without_parttable_silently_ignored (args : Args) (env : Env) (t f : String)
    (hpt : args.parttable = none) (hf : args.format = some f) :
    (invokesPartitionCreate (runMain args env) = false ∧
      invokesFormatDelegate (runMain args env) = false) ∧
    (args.list = false → args.target = some t → args.yes = true →
      check_root env = none → args.iso = none →
      runMain args env = ⟨[], .finished, none⟩) := by
  constructor
  · obtain ⟨h1, h2, _, _⟩ := parttable_none_no_delegates args env hpt
    exact ⟨h1, h2⟩
  · intro hl ht hy hr hi
    unfold runMain
    simp [hl, ht, hy, hr, partPhase_parttable_none hpt, isoPhase, hi]

/-- Witness for C10: `--format ext4` without `--parttable` on the baseline
Linux environment runs no command at all and finishes. -/
theorem format_without_parttable_silently_ignored_witness :
    (invokesPartitionCreate (runMain fmtOnlyArgs baseEnv) = false ∧
      invokesFormatDelegate (runMain fmtOnlyArgs baseEnv) = false) ∧
    runMain fmtOnlyArgs baseEnv = ⟨[], .finished, none⟩ :=
  ⟨(format_without_parttable_silently_ignored fmtOnlyArgs baseEnv "/dev/sdb" "ext4"
      rfl rfl).1,
   (format_without_parttable_silently_ignored fmtOnlyArgs baseEnv "/dev/sdb" "ext4"
      rfl rfl).2 rfl rfl rfl rfl rfl⟩

/-- C1 counterexample: with parttable, format and image all requested, an
`mkfs.ext4` delegate failure (caught and printed by the source) does not
stop the plan: the `dd` raw write is still invoked afterwards and the run
exits 0. -/
theorem mkfs_failure_write_still_attempted :
    mkfsFailEnv.callOk ["mkfs.ext4", "/dev/sdb1"] = false ∧
      ["mkfs.ext4", "/dev/sdb1"] ∈ (runMain argsFull mkfsFailEnv).cmds ∧
      ddCmd "/dev/sdb" "/x.iso" ∈ (runMain argsFull mkfsFailEnv).cmds ∧
      (runMain argsFull mkfsFailEnv).outcome = .finished ∧
      (runMain argsFull mkfsFailEnv).outcome.exitCode = 0 :=
  ⟨by decide, by decide, by decide, rfl, rfl⟩

/-- C1 amended: when the Formatting step fails by raising `SystemExit`
(unsupported filesystem kind, missing `parted`, or unsupported platform),
the raw-write step is never invoked and the run exits nonzero with that
message; delegate failures that are merely caught and printed do not stop
the plan. -/
theorem formatting_systemexit_blocks_write (args : Args) (env : Env)
    (t pt fs m : String) (cs : List Cmd)
    (hl : args.list = false) (ht : args.target = some t) (hr : check_root env = none)
    (hy : args.yes = true) (hsys : env.system = "Linux" ∨ env.system = "Darwin")
    (hpt : args.parttable = some pt) (hf : args.format = some fs)
    (hcr : create_partition_table_unix t pt env = (cs, none))
    (hm : (format_partition_unix t fs env).2 = some m) :
    (runMain args env).outcome = .exited m ∧
      (runMain args env).cmds.all (fun c => !(isDdCmd c)) = true := by
  have hpp : partPhase args env t =
      (cs ++ (format_partition_unix t fs env).1, none, some m) := by
    unfold partPhase
    rcases hsys with h | h <;> simp [hpt, hf, hcr, h, hm]
  have hrun : runMain args env =
      ⟨cs ++ (format_partition_unix t fs env).1, .exited m, none⟩ := by
    unfold runMain
    simp [hl, ht, hr, hy, hpp]
  rw [hrun]
  refine ⟨rfl, ?_⟩
  rw [List.all_eq_true]
  intro c hc
  rcases List.mem_append.mp hc with h | h
  · simp [(create_cmds_benign (by rw [hcr]; exact h)).2.2.2]
  · simp [format_cmds_no_dd h]

/-- Witness for the amended C1: an unsupported filesystem kind makes the
run exit with the formatter's message and never reach `dd`. -/
theorem formatting_systemexit_blocks_write_witness :
    (runMain argsBadFs baseEnv).outcome = .exited "Unsupported filesystem: btrfs" ∧
      (runMain argsBadFs baseEnv).cmds.all (fun c => !(isDdCmd c)) = true :=
  formatting_systemexit_blocks_write argsBadFs baseEnv "/dev/sdb" "gpt" "btrfs"
    "Unsupported filesystem: btrfs" [["sgdisk", "--zap-all", "/dev/sdb"]]
    rfl rfl rfl rfl (Or.inl rfl) rfl rfl rfl rfl

/-- C3 counterexample: a run whose only requested delegate (`sgdisk
--zap-all`) returned failure still falls through to the final "Done."
message and exits 0 — the run claims success although a planned step
failed. -/
theorem sgdisk_failure_still_exits_zero :
    sgdiskFailEnv.callOk ["sgdisk", "--zap-all", "/dev/sdb"] = false ∧
      ["sgdisk", "--zap-all", "/dev/sdb"] ∈ (runMain argsPartOnly sgdiskFailEnv).cmds ∧
      (runMain argsPartOnly sgdiskFailEnv).outcome = .finished ∧
      (runMain argsPartOnly sgdiskFailEnv).outcome.exitCode = 0 :=
  ⟨by decide, by decide, rfl, rfl⟩

/-- C3 amended: the exit status never depends on whether delegates
succeed: on a fully-requested Linux plan with the tools installed, a
supported filesystem kind and an existing image, the run finishes with
exit status 0 for every delegate-success oracle — delegate failures are
printed and ignored; a nonzero exit arises only from `SystemExit` paths. -/
theorem exit_status_ignores_delegate_failures (args : Args) (env : Env)
    (t pt fs p : String)
    (hl : args.list = false) (ht : args.target = some t)
    (hsys : env.system = "Linux") (hu : env.euid = 0) (hy : args.yes = true)
    (hpt : args.parttable = some pt) (hf : args.format = some fs)
    (hsup : supportedFs fs = true) (hiso : args.iso = some p)
    (hex : env.isoExists p = true) (hsg : env.hasSgdisk = true)
    (hp : env.hasParted = true) :
    (runMain args env).outcome = .finished ∧
      (runMain args env).outcome.exitCode = 0 := by
  have hcr : ∃ cs, create_partition_table_unix t pt env = (cs, none) := by
    unfold create_partition_table_unix
    by_cases hg : pt = "gpt" <;> simp [hsg, hg]
  obtain ⟨cs, hcr⟩ := hcr
  have hfm : (format_partition_unix t fs env).2 = none := by
    have h4 : fs = "ext4" ∨ fs = "ext3" ∨ fs = "ext2" ∨ fs = "vfat" ∨
        fs = "fat32" ∨ fs = "ntfs" := by
      simpa [supportedFs] using hsup
    unfold format_partition_unix
    by_cases hco : env.callOk (mkpartCmd t fs)
    · rcases h4 with rfl | rfl | rfl | rfl | rfl | rfl <;> simp [hp, hco, hsys]
    · simp [hp, hco]
  have hpp : partPhase args env t =
      (cs ++ (format_partition_unix t fs env).1, none, none) := by
    unfold partPhase
    simp [hpt, hsys, hcr, hf, hfm]
  have hip : isoPhase args env t = ([ddCmd t p], none) := by
    unfold isoPhase write_iso_unix
    simp [hiso, hsys, hex]
  have hcheck : check_root env = none := by
    unfold check_root
    simp [hsys, hu]
  have hrun : runMain args env =
      ⟨(cs ++ (format_partition_unix t fs env).1) ++ [ddCmd t p], .finished, none⟩ := by
    unfold runMain
    simp [hl, ht, hy, hcheck, hpp, hip]
  rw [hrun]
  exact ⟨rfl, rfl⟩

/-- Witness for the amended C3: the full Linux plan finishes with exit 0
even in the environment where the `mkfs.ext4` delegate fails. -/
theorem exit_status_ignores_delegate_failures_witness :
    (runMain argsFull mkfsFailEnv).outcome = .finished ∧
      (runMain argsFull mkfsFailEnv).outcome.exitCode = 0 :=
  exit_status_ignores_delegate_failures argsFull mkfsFailEnv "/dev/sdb" "gpt" "ext4" "/x.iso"
    rfl rfl rfl rfl rfl rfl rfl rfl rfl rfl rfl rfl
